import Mathlib

/-!
Shallow embedding of the ComplyPilot backend (src/backend/server.py) and
verification of its natural-language specification.

Modelling conventions:
- Python dictionaries that carry records become Lean structures; the MongoDB
  collections become Lean lists of those structures, in insertion order
  (Mongo `find_one` without a sort returns the first matching document, which
  is modelled by `List.find?`; `update_one` updates the first match;
  `delete_many` filters; `insert_one` appends).
- `uuid.uuid4()` calls become explicit fresh-name parameters, and
  `datetime.now` timestamps are omitted: no claim depends on their values.
- Python `round` on the exact rational `score / max * 100` is modelled by
  half-to-even rounding on naturals (`pyRoundDiv`); every quantity the code
  rounds is such a quotient of naturals.
- Python `list.sort(key=...)` is a stable sort; it is modelled by a stable
  insertion sort (`sortGaps`), which agrees extensionally with every stable
  sort by the same key.
-/

/-- An entry of GDPR_QUESTIONS / CYBER_ESSENTIALS_QUESTIONS in server.py. -/
structure Question where
  id : String
  category : String
  subcategory : String
  question : String
  weight : Nat
  guidance : String
deriving Repr, DecidableEq

/-- Pydantic model HealthCheckResponse: one submitted answer. -/
structure HCResponse where
  question_id : String
  answer : Bool
  notes : Option String
deriving Repr, DecidableEq

/-- A gap dictionary as built inside submit_health_check. -/
structure Gap where
  question_id : String
  category : String
  subcategory : String
  question : String
  guidance : String
  priority : String
deriving Repr, DecidableEq

def GDPR_QUESTIONS : List Question := [
  { id := "gdpr_1", category := "GDPR", subcategory := "Data Inventory", question := "Do you maintain a record of all personal data you collect and process?", weight := 3, guidance := "Article 30 of GDPR requires maintaining records of processing activities." },
  { id := "gdpr_2", category := "GDPR", subcategory := "Lawful Basis", question := "Have you identified and documented a lawful basis for each processing activity?", weight := 3, guidance := "You must have a valid lawful basis under Article 6 for processing personal data." },
  { id := "gdpr_3", category := "GDPR", subcategory := "Privacy Notice", question := "Do you have a clear, accessible privacy notice that explains how you use personal data?", weight := 2, guidance := "Articles 13-14 require transparent communication about data processing." },
  { id := "gdpr_4", category := "GDPR", subcategory := "Consent", question := "Where you rely on consent, can individuals easily withdraw it?", weight := 2, guidance := "Consent must be freely given, specific, informed, and unambiguous." },
  { id := "gdpr_5", category := "GDPR", subcategory := "Data Subject Rights", question := "Do you have procedures to respond to data subject access requests within 30 days?", weight := 3, guidance := "Individuals have the right to access their personal data under Article 15." },
  { id := "gdpr_6", category := "GDPR", subcategory := "Data Subject Rights", question := "Can you fulfil requests to erase personal data (right to be forgotten)?", weight := 2, guidance := "Article 17 gives individuals the right to erasure in certain circumstances." },
  { id := "gdpr_7", category := "GDPR", subcategory := "Data Retention", question := "Do you have a data retention policy specifying how long you keep personal data?", weight := 2, guidance := "Personal data should not be kept longer than necessary for the purposes for which it is processed." },
  { id := "gdpr_8", category := "GDPR", subcategory := "Data Security", question := "Have you implemented appropriate technical measures to protect personal data?", weight := 3, guidance := "Article 32 requires implementing appropriate technical and organisational security measures." },
  { id := "gdpr_9", category := "GDPR", subcategory := "Data Security", question := "Do you encrypt personal data in transit and at rest?", weight := 2, guidance := "Encryption is a recommended security measure under GDPR." },
  { id := "gdpr_10", category := "GDPR", subcategory := "Breach Response", question := "Do you have a data breach response procedure in place?", weight := 3, guidance := "You must report certain breaches to the ICO within 72 hours under Article 33." },
  { id := "gdpr_11", category := "GDPR", subcategory := "DPO", question := "Have you assessed whether you need to appoint a Data Protection Officer?", weight := 1, guidance := "Article 37 specifies when a DPO is required." },
  { id := "gdpr_12", category := "GDPR", subcategory := "International Transfers", question := "Do you have appropriate safeguards for transferring personal data outside the UK?", weight := 2, guidance := "International transfers require adequate protection mechanisms." },
  { id := "gdpr_13", category := "GDPR", subcategory := "Staff Training", question := "Do all staff who handle personal data receive data protection training?", weight := 2, guidance := "Staff awareness is a key organisational measure for compliance." },
  { id := "gdpr_14", category := "GDPR", subcategory := "Third Parties", question := "Do you have written contracts with all processors who handle personal data on your behalf?", weight := 3, guidance := "Article 28 requires contracts with data processors specifying processing terms." },
  { id := "gdpr_15", category := "GDPR", subcategory := "DPIA", question := "Do you conduct Data Protection Impact Assessments for high-risk processing?", weight := 2, guidance := "DPIAs are required under Article 35 for processing likely to result in high risk." }
]

def CYBER_ESSENTIALS_QUESTIONS : List Question := [
  { id := "ce_1", category := "Cyber Essentials", subcategory := "Firewalls", question := "Do you have a properly configured firewall protecting your network boundary?", weight := 3, guidance := "Firewalls are the first line of defence against network attacks." },
  { id := "ce_2", category := "Cyber Essentials", subcategory := "Firewalls", question := "Are all firewall rules documented and reviewed regularly?", weight := 2, guidance := "Regular reviews ensure firewall rules remain appropriate and secure." },
  { id := "ce_3", category := "Cyber Essentials", subcategory := "Secure Configuration", question := "Do you remove or disable unnecessary user accounts?", weight := 2, guidance := "Reducing attack surface by removing unused accounts." },
  { id := "ce_4", category := "Cyber Essentials", subcategory := "Secure Configuration", question := "Do you change default passwords on all devices and software?", weight := 3, guidance := "Default credentials are a common attack vector." },
  { id := "ce_5", category := "Cyber Essentials", subcategory := "Secure Configuration", question := "Is auto-run disabled for media and network drives?", weight := 2, guidance := "Prevents automatic execution of malicious code." },
  { id := "ce_6", category := "Cyber Essentials", subcategory := "Access Control", question := "Do users only have access to the data and systems they need for their role?", weight := 3, guidance := "Principle of least privilege reduces risk of data breaches." },
  { id := "ce_7", category := "Cyber Essentials", subcategory := "Access Control", question := "Do you use multi-factor authentication for accessing cloud services?", weight := 3, guidance := "MFA significantly reduces the risk of account compromise." },
  { id := "ce_8", category := "Cyber Essentials", subcategory := "Access Control", question := "Are administrator accounts separate from normal user accounts?", weight := 2, guidance := "Separation prevents privilege escalation attacks." },
  { id := "ce_9", category := "Cyber Essentials", subcategory := "Malware Protection", question := "Is anti-malware software installed on all devices?", weight := 3, guidance := "Essential protection against viruses and malware." },
  { id := "ce_10", category := "Cyber Essentials", subcategory := "Malware Protection", question := "Is your anti-malware software set to update automatically?", weight := 2, guidance := "Regular updates ensure protection against new threats." },
  { id := "ce_11", category := "Cyber Essentials", subcategory := "Malware Protection", question := "Is your anti-malware software configured to scan files automatically?", weight := 2, guidance := "Automatic scanning catches threats before they execute." },
  { id := "ce_12", category := "Cyber Essentials", subcategory := "Patch Management", question := "Are operating systems set to update automatically?", weight := 3, guidance := "Patching fixes known vulnerabilities that attackers exploit." },
  { id := "ce_13", category := "Cyber Essentials", subcategory := "Patch Management", question := "Do you apply high-risk security patches within 14 days of release?", weight := 3, guidance := "Timely patching is critical for preventing exploitation." },
  { id := "ce_14", category := "Cyber Essentials", subcategory := "Patch Management", question := "Do you remove unsupported software from your systems?", weight := 2, guidance := "Unsupported software no longer receives security updates." },
  { id := "ce_15", category := "Cyber Essentials", subcategory := "Password Policy", question := "Do you enforce a minimum password length of at least 12 characters?", weight := 2, guidance := "Longer passwords are significantly harder to crack." }
]

def ALL_QUESTIONS : List Question := GDPR_QUESTIONS ++ CYBER_ESSENTIALS_QUESTIONS

/-- Python dict comprehension: responses_dict, with responses_dict.get(qid).
Later list entries overwrite earlier ones with the same question_id. -/
def responsesDict (rs : List HCResponse) (qid : String) : Option HCResponse :=
  rs.foldl (fun acc r => if r.question_id = qid then some r else acc) none

/-- The priority expression: high if weight >= 3 else medium if weight >= 2 else low. -/
def gapPriority (weight : Nat) : String :=
  if weight ≥ 3 then "high" else if weight ≥ 2 then "medium" else "low"

/-- The gap dictionary appended for an answered-false question. -/
def mkGap (q : Question) : Gap :=
  { question_id := q.id, category := q.category, subcategory := q.subcategory,
    question := q.question, guidance := q.guidance, priority := gapPriority q.weight }

/-- Accumulator of the scoring loop over ALL_QUESTIONS. -/
structure ScoreAcc where
  gdpr_score : Nat
  gdpr_max : Nat
  cyber_score : Nat
  cyber_max : Nat
  gaps : List Gap
deriving Repr, DecidableEq

/-- One iteration of the scoring loop body in submit_health_check. -/
def stepQuestion (rd : String → Option HCResponse) (acc : ScoreAcc) (q : Question) : ScoreAcc :=
  let response := rd q.id
  let weight := q.weight
  if q.category = "GDPR" then
    match response with
    | some r =>
        if r.answer then
          { acc with gdpr_max := acc.gdpr_max + weight, gdpr_score := acc.gdpr_score + weight }
        else
          { acc with gdpr_max := acc.gdpr_max + weight, gaps := acc.gaps ++ [mkGap q] }
    | none => { acc with gdpr_max := acc.gdpr_max + weight }
  else
    match response with
    | some r =>
        if r.answer then
          { acc with cyber_max := acc.cyber_max + weight, cyber_score := acc.cyber_score + weight }
        else
          { acc with cyber_max := acc.cyber_max + weight, gaps := acc.gaps ++ [mkGap q] }
    | none => { acc with cyber_max := acc.cyber_max + weight }

/-- The scoring loop, parameterized by the catalog iterated over. -/
def scoreAcc (catalog : List Question) (rs : List HCResponse) : ScoreAcc :=
  catalog.foldl (stepQuestion (responsesDict rs)) ⟨0, 0, 0, 0, []⟩

/-- Python round(a / b) for naturals with b > 0: round half to even on the
exact rational a / b (the float computed by the code agrees on every value
arising in the claims). -/
def pyRoundDiv (a b : Nat) : Nat :=
  let q := a / b
  let r := a % b
  if 2 * r < b then q
  else if 2 * r > b then q + 1
  else if q % 2 = 0 then q else q + 1

/-- round((score / max) * 100) if max > 0 else 0. -/
def pct (score mx : Nat) : Nat :=
  if mx > 0 then pyRoundDiv (score * 100) mx else 0

/-- The risk-level ladder on the overall percentage. -/
def riskLevel (overall : Nat) : String :=
  if overall ≥ 80 then "low"
  else if overall ≥ 60 then "medium"
  else if overall ≥ 40 then "high"
  else "critical"

/-- priority_order.get(x.priority, 3) with priority_order = high 0, medium 1, low 2. -/
def priorityRank (p : String) : Nat :=
  if p = "high" then 0 else if p = "medium" then 1 else if p = "low" then 2 else 3

/-- Stable insertion of a gap: it goes before the first element whose
priority rank is not smaller. -/
def sortInsert (g : Gap) : List Gap → List Gap
  | [] => [g]
  | h :: t =>
      if priorityRank g.priority ≤ priorityRank h.priority then g :: h :: t
      else h :: sortInsert g t

/-- gaps.sort(key=lambda x: priority_order.get(x.priority, 3)): Python sort is
stable, modelled by stable insertion sort (extensionally equal to any stable
sort by the same key). -/
def sortGaps (gaps : List Gap) : List Gap :=
  gaps.foldr sortInsert []

/-- The health_check record inserted into db.health_checks (id and
created_at omitted as opaque). -/
structure HealthCheck where
  user_id : String
  responses : List HCResponse
  compliance_score : Nat
  gdpr_score : Nat
  cyber_essentials_score : Nat
  risk_level : String
  gaps : List Gap
  total_gaps : Nat
deriving Repr, DecidableEq

/-- Body of submit_health_check, parameterized by the catalog it iterates. -/
def submitHealthCheckOn (catalog : List Question) (user_id : String)
    (responses : List HCResponse) : HealthCheck :=
  let acc := scoreAcc catalog responses
  let gdpr_percentage := pct acc.gdpr_score acc.gdpr_max
  let cyber_percentage := pct acc.cyber_score acc.cyber_max
  let overall_percentage := pct (acc.gdpr_score + acc.cyber_score) (acc.gdpr_max + acc.cyber_max)
  let risk_level := riskLevel overall_percentage
  let gaps := sortGaps acc.gaps
  { user_id := user_id, responses := responses,
    compliance_score := overall_percentage,
    gdpr_score := gdpr_percentage,
    cyber_essentials_score := cyber_percentage,
    risk_level := risk_level, gaps := gaps, total_gaps := gaps.length }

/-- The endpoint as shipped: the scoring loop runs over ALL_QUESTIONS. -/
def submit_health_check (user_id : String) (responses : List HCResponse) : HealthCheck :=
  submitHealthCheckOn ALL_QUESTIONS user_id responses

/-- An entry of RISK_TEMPLATES in server.py. -/
structure TemplateRisk where
  risk_id : String
  title : String
  description : String
  likelihood : String
  impact : String
  category : String
  mitigation : String
deriving Repr, DecidableEq

def retailTemplate : List TemplateRisk := [
  { risk_id := "retail_1", title := "Customer Payment Data Breach", description := "Unauthorised access to stored payment card details", likelihood := "medium", impact := "high", category := "Data Security", mitigation := "Implement PCI DSS compliance measures, tokenise card data" },
  { risk_id := "retail_2", title := "E-commerce Platform Vulnerability", description := "Security vulnerabilities in online shopping systems", likelihood := "medium", impact := "high", category := "Cyber Security", mitigation := "Regular security testing, WAF implementation, secure coding practices" },
  { risk_id := "retail_3", title := "Customer Data Marketing Misuse", description := "Using customer data for marketing without proper consent", likelihood := "high", impact := "medium", category := "GDPR Compliance", mitigation := "Implement consent management platform, review marketing permissions" },
  { risk_id := "retail_4", title := "Third-Party Delivery Partner Data Sharing", description := "Inadequate data protection with delivery partners", likelihood := "medium", impact := "medium", category := "Third Party Risk", mitigation := "Review contracts, implement data processing agreements" },
  { risk_id := "retail_5", title := "Point of Sale System Compromise", description := "Malware infection on POS systems", likelihood := "medium", impact := "high", category := "Cyber Security", mitigation := "POS system hardening, network segmentation, regular scanning" }
]

def professionalServicesTemplate : List TemplateRisk := [
  { risk_id := "ps_1", title := "Client Confidentiality Breach", description := "Unauthorised disclosure of sensitive client information", likelihood := "medium", impact := "high", category := "Data Security", mitigation := "Access controls, encryption, staff training on confidentiality" },
  { risk_id := "ps_2", title := "Email Phishing Attack", description := "Staff falling victim to sophisticated phishing attempts", likelihood := "high", impact := "high", category := "Cyber Security", mitigation := "Phishing awareness training, email filtering, MFA enforcement" },
  { risk_id := "ps_3", title := "Document Retention Non-Compliance", description := "Retaining client documents beyond legal requirements", likelihood := "high", impact := "medium", category := "GDPR Compliance", mitigation := "Implement retention schedules, automated deletion, regular audits" },
  { risk_id := "ps_4", title := "Remote Working Data Exposure", description := "Data leakage through insecure remote working practices", likelihood := "high", impact := "medium", category := "Cyber Security", mitigation := "VPN usage, device encryption, secure file sharing policies" },
  { risk_id := "ps_5", title := "Subcontractor Data Handling", description := "Inadequate data protection by subcontracted parties", likelihood := "medium", impact := "medium", category := "Third Party Risk", mitigation := "Due diligence, contractual obligations, periodic audits" }
]

def healthcareTemplate : List TemplateRisk := [
  { risk_id := "hc_1", title := "Patient Record Breach", description := "Unauthorised access to sensitive health records", likelihood := "medium", impact := "high", category := "Data Security", mitigation := "Role-based access, audit logging, encryption" },
  { risk_id := "hc_2", title := "Medical Device Vulnerability", description := "Security flaws in connected medical equipment", likelihood := "medium", impact := "high", category := "Cyber Security", mitigation := "Device inventory, network segmentation, patch management" },
  { risk_id := "hc_3", title := "Special Category Data Mishandling", description := "Processing health data without appropriate safeguards", likelihood := "medium", impact := "high", category := "GDPR Compliance", mitigation := "Article 9 compliance review, DPIA for processing activities" },
  { risk_id := "hc_4", title := "Ransomware Attack", description := "Encryption of patient records by malicious actors", likelihood := "high", impact := "high", category := "Cyber Security", mitigation := "Offline backups, endpoint protection, incident response plan" },
  { risk_id := "hc_5", title := "Consent Management Failure", description := "Processing patient data without valid consent", likelihood := "medium", impact := "medium", category := "GDPR Compliance", mitigation := "Consent audit, digital consent capture, staff training" }
]

def technologyTemplate : List TemplateRisk := [
  { risk_id := "tech_1", title := "Source Code Theft", description := "Unauthorised access to proprietary software code", likelihood := "medium", impact := "high", category := "Data Security", mitigation := "Code repository security, access controls, DLP solutions" },
  { risk_id := "tech_2", title := "Cloud Infrastructure Misconfiguration", description := "Security gaps in cloud service setup", likelihood := "high", impact := "high", category := "Cyber Security", mitigation := "Cloud security posture management, configuration audits" },
  { risk_id := "tech_3", title := "Customer Data Processing Scope Creep", description := "Processing customer data beyond agreed purposes", likelihood := "medium", impact := "medium", category := "GDPR Compliance", mitigation := "Data mapping, processing registers, privacy by design" },
  { risk_id := "tech_4", title := "API Security Breach", description := "Exploitation of API vulnerabilities exposing data", likelihood := "high", impact := "high", category := "Cyber Security", mitigation := "API security testing, authentication, rate limiting" },
  { risk_id := "tech_5", title := "International Data Transfer Issues", description := "Non-compliant data transfers to overseas development teams", likelihood := "high", impact := "medium", category := "GDPR Compliance", mitigation := "SCCs, adequacy decisions, data localisation" }
]

def manufacturingTemplate : List TemplateRisk := [
  { risk_id := "mfg_1", title := "Industrial Control System Attack", description := "Cyber attack on operational technology systems", likelihood := "medium", impact := "high", category := "Cyber Security", mitigation := "OT/IT segregation, ICS security monitoring" },
  { risk_id := "mfg_2", title := "Supply Chain Data Breach", description := "Compromise through supplier systems", likelihood := "medium", impact := "medium", category := "Third Party Risk", mitigation := "Supplier security assessments, access restrictions" },
  { risk_id := "mfg_3", title := "Employee Personal Data Exposure", description := "HR system vulnerabilities exposing staff data", likelihood := "medium", impact := "medium", category := "GDPR Compliance", mitigation := "HR system security review, access controls" },
  { risk_id := "mfg_4", title := "Legacy System Vulnerabilities", description := "Unpatched legacy systems creating security gaps", likelihood := "high", impact := "medium", category := "Cyber Security", mitigation := "Legacy system audit, upgrade planning, compensating controls" },
  { risk_id := "mfg_5", title := "CCTV Compliance Issues", description := "Non-compliant use of workplace surveillance", likelihood := "medium", impact := "low", category := "GDPR Compliance", mitigation := "CCTV policy review, signage, retention limits" }
]

def generalTemplate : List TemplateRisk := [
  { risk_id := "gen_1", title := "Ransomware Attack", description := "Malicious encryption of business data", likelihood := "high", impact := "high", category := "Cyber Security", mitigation := "Regular backups, endpoint protection, staff training" },
  { risk_id := "gen_2", title := "Phishing and Social Engineering", description := "Staff manipulation to disclose credentials or data", likelihood := "high", impact := "high", category := "Cyber Security", mitigation := "Security awareness training, email filtering, MFA" },
  { risk_id := "gen_3", title := "Data Subject Rights Non-Compliance", description := "Failure to respond to data subject requests timely", likelihood := "medium", impact := "medium", category := "GDPR Compliance", mitigation := "DSR procedures, staff training, request tracking" },
  { risk_id := "gen_4", title := "Third Party Data Breach", description := "Data exposure through supplier or partner systems", likelihood := "medium", impact := "medium", category := "Third Party Risk", mitigation := "Vendor assessments, contractual obligations, monitoring" },
  { risk_id := "gen_5", title := "Unencrypted Data Storage", description := "Personal data stored without encryption", likelihood := "medium", impact := "medium", category := "Data Security", mitigation := "Encryption at rest implementation, security audits" }
]

/-- The RISK_TEMPLATES dictionary, modelled as an association list. -/
def RISK_TEMPLATES : List (String × List TemplateRisk) := [
  ("retail", retailTemplate),
  ("professional_services", professionalServicesTemplate),
  ("healthcare", healthcareTemplate),
  ("technology", technologyTemplate),
  ("manufacturing", manufacturingTemplate),
  ("general", generalTemplate)
]

/-- RISK_TEMPLATES.get(key): dictionary lookup. -/
def templatesGet (key : String) : Option (List TemplateRisk) :=
  (RISK_TEMPLATES.find? (fun p => p.1 = key)).map (fun p => p.2)

/-- Python str.lower (the data here is ASCII, where Char.toLower agrees). -/
def pyLower (s : String) : String :=
  ⟨s.data.map Char.toLower⟩

/-- Python str.replace of the single character space by underscore. -/
def replaceSpaces (s : String) : String :=
  ⟨s.data.map (fun c => if c = ' ' then '_' else c)⟩

/-- data.business_type.lower().replace(space, underscore). -/
def normalizeBusinessType (s : String) : String :=
  replaceSpaces (pyLower s)

/-- A risk instance stored inside a register. -/
structure Risk where
  risk_id : String
  title : String
  description : String
  likelihood : String
  impact : String
  category : String
  mitigation : String
  status : String
  owner : Option String
  due_date : Option String
  notes : Option String
deriving Repr, DecidableEq

/-- Instantiation of one template entry in generate_risk_register:
template fields copied, risk_id regenerated, status identified,
owner / due_date / notes null. -/
def instantiateRisk (fresh_id : String) (t : TemplateRisk) : Risk :=
  { risk_id := fresh_id, title := t.title, description := t.description,
    likelihood := t.likelihood, impact := t.impact, category := t.category,
    mitigation := t.mitigation, status := "identified",
    owner := none, due_date := none, notes := none }

/-- The loop building the risks list; uuid4 calls are the fresh supply. -/
def instantiateRisks (fresh : Nat → String) (ts : List TemplateRisk) : List Risk :=
  ts.enum.map (fun p => instantiateRisk (fresh p.1) p.2)

/-- A document of db.risk_registers (timestamps omitted as opaque). -/
structure RiskRegister where
  id : String
  user_id : String
  business_type : String
  industry : Option String
  risks : List Risk
  total_risks : Nat
deriving Repr, DecidableEq

/-- Body of generate_risk_register: normalize the business type, look up the
template with fallback to general, instantiate risks with fresh ids, then
delete_many the user's registers and insert the new one. Returns the new
register and the new collection state. The user-profile side write is not
modelled: no claim mentions it. -/
def generate_risk_register (reg_id : String) (fresh : Nat → String)
    (user_id : String) (business_type : String) (industry : Option String)
    (registers : List RiskRegister) : RiskRegister × List RiskRegister :=
  let bt := normalizeBusinessType business_type
  let template_risks := (templatesGet bt).getD generalTemplate
  let risks := instantiateRisks fresh template_risks
  let reg : RiskRegister :=
    { id := reg_id, user_id := user_id, business_type := business_type,
      industry := industry, risks := risks, total_risks := risks.length }
  (reg, (registers.filter (fun r => ¬ r.user_id = user_id)) ++ [reg])

/-- Python truthiness of the optional notes string: None and the empty
string are falsy. -/
def pyTruthy (s : Option String) : Bool :=
  match s with
  | none => false
  | some s => !s.isEmpty

/-- The update loop of update_risk: the first risk whose risk_id matches gets
its status set, and its notes overwritten only when the new notes value is
truthy; the Bool records the updated flag. -/
def updateRiskInList (rid status : String) (notes : Option String) :
    List Risk → List Risk × Bool
  | [] => ([], false)
  | r :: rest =>
      if r.risk_id = rid then
        ({ r with status := status,
                  notes := if pyTruthy notes then notes else r.notes } :: rest, true)
      else
        let p := updateRiskInList rid status notes rest
        (r :: p.1, p.2)

/-- db.risk_registers.update_one on user_id setting risks: first match only. -/
def setRisksFor (user_id : String) (risks : List Risk) :
    List RiskRegister → List RiskRegister
  | [] => []
  | r :: rest =>
      if r.user_id = user_id then { r with risks := risks } :: rest
      else r :: setRisksFor user_id risks rest

/-- Outcome of an endpoint that may raise an HTTPException: the optional
(status code, detail) of the exception and the collection afterwards (a
raise happens before any write, so the collection is returned unchanged
on the error paths, exactly as in the code). -/
structure UpdateOutcome where
  error : Option (Nat × String)
  registers : List RiskRegister
deriving Repr, DecidableEq

/-- Body of update_risk: find the user's register (404 if none), update the
first matching risk (404 if no risk matched), persist the risks list. -/
def update_risk (user_id rid : String) (status : String) (notes : Option String)
    (registers : List RiskRegister) : UpdateOutcome :=
  match registers.find? (fun r => r.user_id = user_id) with
  | none => ⟨some (404, "Risk register not found"), registers⟩
  | some reg =>
      let p := updateRiskInList rid status notes reg.risks
      if p.2 then ⟨none, setRisksFor user_id p.1 registers⟩
      else ⟨some (404, "Risk not found"), registers⟩

/-- Membership test for the documented four-value status enum. -/
def statusEnum (s : String) : Bool :=
  s = "identified" || s = "mitigating" || s = "resolved" || s = "accepted"

/-- A document of db.documents (raw content, timestamps and the prompt text
omitted as opaque: no claim depends on them); the parsed analyzer JSON value
is modelled opaquely as a String. -/
structure Document where
  id : String
  user_id : String
  filename : String
  file_type : String
  analysis_status : String
  analysis_result : Option String
  analysis_error : Option String
deriving Repr, DecidableEq

/-- Outcome of the external analyzer call together with json.loads: success
carries the parsed value, failure carries the exception message of a
transport error or of an invalid-JSON reply. -/
inductive AnalyzerOutcome where
  | success (data : String)
  | failure (msg : String)
deriving Repr, DecidableEq

/-- db.documents.update_one on id: updates the first match. -/
def setDocFields (doc_id : String) (f : Document → Document) :
    List Document → List Document
  | [] => []
  | d :: rest =>
      if d.id = doc_id then f d :: rest
      else d :: setDocFields doc_id f rest

/-- Outcome of analyze_document: the optional raised HTTPException
(status code, detail) and the documents collection afterwards. -/
structure AnalyzeOutcome where
  error : Option (Nat × String)
  documents : List Document
deriving Repr, DecidableEq

/-- Body of analyze_document: find the document by id and user (404 if
absent), call the analyzer; on success persist analysis_status completed
with the parsed result; on any failure persist analysis_status failed with
the error message and raise a 500. -/
def analyze_document (doc_id user_id : String) (outcome : AnalyzerOutcome)
    (docs : List Document) : AnalyzeOutcome :=
  match docs.find? (fun d => d.id = doc_id && d.user_id = user_id) with
  | none => ⟨some (404, "Document not found"), docs⟩
  | some _ =>
      match outcome with
      | .success data =>
          ⟨none, setDocFields doc_id
            (fun d => { d with analysis_status := "completed",
                               analysis_result := some data }) docs⟩
      | .failure msg =>
          ⟨some (500, "Analysis failed: " ++ msg),
           setDocFields doc_id
            (fun d => { d with analysis_status := "failed",
                               analysis_error := some msg }) docs⟩

/-! Helper definitions and lemmas about the scoring loop. -/

/-- Sum of the weights of a list of questions. -/
def sumWeights (qs : List Question) : Nat :=
  (qs.map (fun q => q.weight)).sum

/-- The GDPR bucket of a catalog. -/
def gdprOf (c : List Question) : List Question :=
  c.filter (fun q => q.category = "GDPR")

/-- The non-GDPR (Cyber Essentials) bucket of a catalog. -/
def cyberOf (c : List Question) : List Question :=
  c.filter (fun q => ¬ q.category = "GDPR")

/-- A question answered true under a given answer lookup. -/
def trueOf (rd : String → Option HCResponse) (q : Question) : Bool :=
  match rd q.id with
  | some r => r.answer
  | none => false

/-- A question answered false under a given answer lookup. -/
def falseOf (rd : String → Option HCResponse) (q : Question) : Bool :=
  match rd q.id with
  | some r => !r.answer
  | none => false

theorem foldl_step_spec (rd : String → Option HCResponse) (c : List Question) :
    ∀ acc : ScoreAcc,
      c.foldl (stepQuestion rd) acc =
        { gdpr_score := acc.gdpr_score + sumWeights ((gdprOf c).filter (trueOf rd)),
          gdpr_max := acc.gdpr_max + sumWeights (gdprOf c),
          cyber_score := acc.cyber_score + sumWeights ((cyberOf c).filter (trueOf rd)),
          cyber_max := acc.cyber_max + sumWeights (cyberOf c),
          gaps := acc.gaps ++ (c.filter (falseOf rd)).map mkGap } := by
  induction c with
  | nil =>
      intro acc
      simp [gdprOf, cyberOf, sumWeights]
  | cons q t ih =>
      intro acc
      simp only [List.foldl_cons]
      rw [ih]
      by_cases hcat : q.category = "GDPR" <;>
        rcases hrd : rd q.id with _ | r
      · simp [stepQuestion, hcat, hrd, gdprOf, cyberOf, trueOf, falseOf, sumWeights,
              List.filter_cons, ScoreAcc.mk.injEq]
        omega
      · rcases hans : r.answer <;>
          simp [stepQuestion, hcat, hrd, hans, gdprOf, cyberOf, trueOf, falseOf, sumWeights,
                List.filter_cons, ScoreAcc.mk.injEq] <;>
          omega
      · simp [stepQuestion, hcat, hrd, gdprOf, cyberOf, trueOf, falseOf, sumWeights,
              List.filter_cons, ScoreAcc.mk.injEq]
        omega
      · rcases hans : r.answer <;>
          simp [stepQuestion, hcat, hrd, hans, gdprOf, cyberOf, trueOf, falseOf, sumWeights,
                List.filter_cons, ScoreAcc.mk.injEq] <;>
          omega

/-- The scoring loop, characterized: maxima are the full per-category weight
sums, achieved scores are the weight sums of the answered-true questions,
and the raw gap list is the answered-false questions in catalog order. -/
theorem scoreAcc_spec (c : List Question) (rs : List HCResponse) :
    scoreAcc c rs =
      { gdpr_score := sumWeights ((gdprOf c).filter (trueOf (responsesDict rs))),
        gdpr_max := sumWeights (gdprOf c),
        cyber_score := sumWeights ((cyberOf c).filter (trueOf (responsesDict rs))),
        cyber_max := sumWeights (cyberOf c),
        gaps := (c.filter (falseOf (responsesDict rs))).map mkGap } := by
  unfold scoreAcc
  rw [foldl_step_spec]
  simp

/-! Lemmas about the stable sort of gaps. -/

/-- The bucket of gaps of a given priority rank, in original order. -/
def rankFilter (i : Nat) (l : List Gap) : List Gap :=
  l.filter (fun g => priorityRank g.priority = i)

theorem priorityRank_le_three (p : String) : priorityRank p ≤ 3 := by
  unfold priorityRank
  split
  · omega
  · split
    · omega
    · split <;> omega

theorem sortInsert_skip (g : Gap) :
    ∀ (A l : List Gap),
      (∀ h ∈ A, priorityRank h.priority < priorityRank g.priority) →
      sortInsert g (A ++ l) = A ++ sortInsert g l := by
  intro A
  induction A with
  | nil => intro l _; simp
  | cons a A ih =>
      intro l hA
      have ha : priorityRank a.priority < priorityRank g.priority :=
        hA a (List.mem_cons_self a A)
      simp only [List.cons_append, sortInsert]
      rw [if_neg (by omega)]
      have hrec := ih l (fun h hh => hA h (List.mem_cons_of_mem a hh))
      simpa using hrec

theorem sortInsert_front (g : Gap) :
    ∀ l : List Gap,
      (∀ h ∈ l, priorityRank g.priority ≤ priorityRank h.priority) →
      sortInsert g l = g :: l := by
  intro l
  cases l with
  | nil => intro _; rfl
  | cons a t =>
      intro h
      simp only [sortInsert]
      rw [if_pos (h a (List.mem_cons_self a t))]

theorem rankFilter_mem_rank (i : Nat) (l : List Gap) :
    ∀ h ∈ rankFilter i l, priorityRank h.priority = i := by
  intro h hm
  have := (List.mem_filter.mp hm).2
  simpa using this

/-- A stable sort by priority rank concatenates the four rank buckets, each
in original order. -/
theorem sortGaps_buckets (l : List Gap) :
    sortGaps l = rankFilter 0 l ++ rankFilter 1 l ++ rankFilter 2 l ++ rankFilter 3 l := by
  induction l with
  | nil => rfl
  | cons g t ih =>
      have hle : priorityRank g.priority ≤ 3 := priorityRank_le_three g.priority
      have hstep : sortGaps (g :: t) = sortInsert g (sortGaps t) := rfl
      have hcons : ∀ i : Nat, rankFilter i (g :: t) =
          if priorityRank g.priority = i then g :: rankFilter i t else rankFilter i t := by
        intro i
        by_cases hg : priorityRank g.priority = i <;>
          simp [rankFilter, List.filter_cons, hg]
      rw [hstep, ih]
      interval_cases hr : priorityRank g.priority
      · rw [sortInsert_front]
        · simp [hcons, hr, List.append_assoc]
        · intro h _; omega
      · rw [List.append_assoc, List.append_assoc,
            sortInsert_skip g (rankFilter 0 t) _
              (fun h hh => by have := rankFilter_mem_rank 0 t h hh; omega),
            sortInsert_front]
        · simp [hcons, hr, List.append_assoc]
        · intro h hh
          rcases List.mem_append.mp hh with h1 | h2
          · have := rankFilter_mem_rank 1 t h h1; omega
          · rcases List.mem_append.mp h2 with h3 | h4
            · have := rankFilter_mem_rank 2 t h h3; omega
            · have := rankFilter_mem_rank 3 t h h4; omega
      · rw [List.append_assoc, List.append_assoc,
            sortInsert_skip g (rankFilter 0 t) _
              (fun h hh => by have := rankFilter_mem_rank 0 t h hh; omega),
            sortInsert_skip g (rankFilter 1 t) _
              (fun h hh => by have := rankFilter_mem_rank 1 t h hh; omega),
            sortInsert_front]
        · simp [hcons, hr, List.append_assoc]
        · intro h hh
          rcases List.mem_append.mp hh with h1 | h2
          · have := rankFilter_mem_rank 2 t h h1; omega
          · have := rankFilter_mem_rank 3 t h h2; omega
      · rw [List.append_assoc, List.append_assoc,
            sortInsert_skip g (rankFilter 0 t) _
              (fun h hh => by have := rankFilter_mem_rank 0 t h hh; omega),
            sortInsert_skip g (rankFilter 1 t) _
              (fun h hh => by have := rankFilter_mem_rank 1 t h hh; omega),
            sortInsert_skip g (rankFilter 2 t) _
              (fun h hh => by have := rankFilter_mem_rank 2 t h hh; omega),
            sortInsert_front]
        · simp [hcons, hr, List.append_assoc]
        · intro h hh
          have := rankFilter_mem_rank 3 t h hh; omega

/-- Sorting the gaps permutes them: membership is preserved. -/
theorem mem_sortGaps (g : Gap) (l : List Gap) : g ∈ sortGaps l ↔ g ∈ l := by
  rw [sortGaps_buckets]
  constructor
  · intro hm
    rcases List.mem_append.mp hm with h1 | h4
    · rcases List.mem_append.mp h1 with h2 | h3
      · rcases List.mem_append.mp h2 with h5 | h6
        · exact (List.mem_filter.mp h5).1
        · exact (List.mem_filter.mp h6).1
      · exact (List.mem_filter.mp h3).1
    · exact (List.mem_filter.mp h4).1
  · intro hm
    have hle : priorityRank g.priority ≤ 3 := priorityRank_le_three g.priority
    interval_cases hr : priorityRank g.priority
    · exact List.mem_append.mpr (.inl (List.mem_append.mpr (.inl
        (List.mem_append.mpr (.inl (List.mem_filter.mpr ⟨hm, by simp [hr]⟩))))))
    · exact List.mem_append.mpr (.inl (List.mem_append.mpr (.inl
        (List.mem_append.mpr (.inr (List.mem_filter.mpr ⟨hm, by simp [hr]⟩))))))
    · exact List.mem_append.mpr (.inl (List.mem_append.mpr (.inr
        (List.mem_filter.mpr ⟨hm, by simp [hr]⟩))))
    · exact List.mem_append.mpr (.inr (List.mem_filter.mpr ⟨hm, by simp [hr]⟩))

/-! Lemmas about the responses dictionary and gap priorities. -/

/-- Building the dictionary and looking a key up returns the last response
in list order bearing that question_id (dict comprehension semantics). -/
theorem responsesDict_eq_last (rs : List HCResponse) (qid : String) :
    responsesDict rs qid = rs.reverse.find? (fun r => r.question_id = qid) := by
  suffices h : ∀ (l : List HCResponse) (init : Option HCResponse),
      l.foldl (fun acc r => if r.question_id = qid then some r else acc) init
        = (l.reverse.find? (fun r => r.question_id = qid)).elim init some by
    have h0 := h rs none
    unfold responsesDict
    rw [h0]
    cases rs.reverse.find? (fun r => r.question_id = qid) <;> rfl
  intro l
  induction l with
  | nil => intro init; rfl
  | cons a t ih =>
      intro init
      simp only [List.foldl_cons, List.reverse_cons]
      rw [ih, List.find?_append]
      cases ht : t.reverse.find? (fun r => r.question_id = qid) with
      | some r => rfl
      | none =>
          by_cases ha : a.question_id = qid <;>
            simp [List.find?, ha]

/-- The priority attached to a gap is one of the three levels. -/
theorem gapPriority_cases (w : Nat) :
    gapPriority w = "high" ∨ gapPriority w = "medium" ∨ gapPriority w = "low" := by
  unfold gapPriority
  split
  · exact .inl rfl
  · split
    · exact .inr (.inl rfl)
    · exact .inr (.inr rfl)

theorem priorityRank_high : priorityRank "high" = 0 := by decide
theorem priorityRank_medium : priorityRank "medium" = 1 := by decide
theorem priorityRank_low : priorityRank "low" = 2 := by decide

/-- On a list of gaps whose priorities are among the three levels, the rank
buckets are exactly the priority-name buckets and the junk bucket is empty. -/
theorem rankFilter_of_levels (l : List Gap)
    (hl : ∀ g ∈ l, g.priority = "high" ∨ g.priority = "medium" ∨ g.priority = "low") :
    rankFilter 0 l = l.filter (fun g => g.priority = "high")
  ∧ rankFilter 1 l = l.filter (fun g => g.priority = "medium")
  ∧ rankFilter 2 l = l.filter (fun g => g.priority = "low")
  ∧ rankFilter 3 l = [] := by
  refine ⟨List.filter_congr ?_, List.filter_congr ?_, List.filter_congr ?_,
    List.filter_eq_nil_iff.mpr ?_⟩ <;>
    intro g hg <;>
    rcases hl g hg with h | h | h <;>
    simp [h, priorityRank]

/-- Achieved GDPR score: weights of GDPR questions answered true. -/
def achievedGdpr (c : List Question) (rs : List HCResponse) : Nat :=
  sumWeights ((gdprOf c).filter (trueOf (responsesDict rs)))

/-- Achieved Cyber Essentials score: weights of cyber questions answered true. -/
def achievedCyber (c : List Question) (rs : List HCResponse) : Nat :=
  sumWeights ((cyberOf c).filter (trueOf (responsesDict rs)))

/-- The gap list before sorting: answered-false questions in catalog order. -/
def rawGaps (c : List Question) (rs : List HCResponse) : List Gap :=
  (c.filter (falseOf (responsesDict rs))).map mkGap

/-- Full characterization of the record built by submit_health_check. -/
theorem submitHealthCheckOn_spec (c : List Question) (u : String) (rs : List HCResponse) :
    submitHealthCheckOn c u rs =
      { user_id := u, responses := rs,
        compliance_score := pct (achievedGdpr c rs + achievedCyber c rs)
          (sumWeights (gdprOf c) + sumWeights (cyberOf c)),
        gdpr_score := pct (achievedGdpr c rs) (sumWeights (gdprOf c)),
        cyber_essentials_score := pct (achievedCyber c rs) (sumWeights (cyberOf c)),
        risk_level := riskLevel (pct (achievedGdpr c rs + achievedCyber c rs)
          (sumWeights (gdprOf c) + sumWeights (cyberOf c))),
        gaps := sortGaps (rawGaps c rs),
        total_gaps := (sortGaps (rawGaps c rs)).length } := by
  unfold submitHealthCheckOn achievedGdpr achievedCyber rawGaps
  rw [scoreAcc_spec]

/-- Filtering the responses by a predicate satisfied by every response whose
question_id equals qid does not change the dictionary fold at key qid. -/
theorem foldl_dict_filter (qid : String) (p : HCResponse → Bool)
    (hp : ∀ r, r.question_id = qid → p r = true) :
    ∀ (l : List HCResponse) (init : Option HCResponse),
      (l.filter p).foldl (fun acc r => if r.question_id = qid then some r else acc) init
        = l.foldl (fun acc r => if r.question_id = qid then some r else acc) init := by
  intro l
  induction l with
  | nil => intro _; rfl
  | cons b u ihl =>
      intro init
      cases hb : p b with
      | true =>
          simp only [List.filter_cons, hb, if_true, List.foldl_cons]
          exact ihl _
      | false =>
          have hbq : ¬ b.question_id = qid := by
            intro hq
            exact absurd (hp b hq) (by simp [hb])
          simp only [List.filter_cons, hb, Bool.false_eq_true, if_false, List.foldl_cons]
          rw [ihl]
          simp [hbq]

/-- Dropping the answers whose question_id matches no catalog question does
not change the dictionary lookup at any catalog question_id. -/
theorem responsesDict_filter_known (c : List Question) (rs : List HCResponse)
    (qid : String) (hq : ∃ q ∈ c, q.id = qid) :
    responsesDict (rs.filter (fun r => c.any (fun q => q.id = r.question_id))) qid
      = responsesDict rs qid := by
  have hp : ∀ r : HCResponse, r.question_id = qid →
      (c.any (fun q => q.id = r.question_id)) = true := by
    intro r hr
    rcases hq with ⟨q, hqc, hqid⟩
    exact List.any_eq_true.mpr ⟨q, hqc, by simp [hr, hqid]⟩
  unfold responsesDict
  exact foldl_dict_filter qid _ hp rs none

/-- Agreement of the response dictionaries on every catalog question_id gives
the same scoring accumulator. -/
theorem scoreAcc_congr (c : List Question) (rs rs' : List HCResponse)
    (h : ∀ q ∈ c, responsesDict rs q.id = responsesDict rs' q.id) :
    scoreAcc c rs = scoreAcc c rs' := by
  rw [scoreAcc_spec, scoreAcc_spec]
  have htrue : ∀ q ∈ c, trueOf (responsesDict rs) q = trueOf (responsesDict rs') q := by
    intro q hq
    unfold trueOf
    rw [h q hq]
  have hfalse : ∀ q ∈ c, falseOf (responsesDict rs) q = falseOf (responsesDict rs') q := by
    intro q hq
    unfold falseOf
    rw [h q hq]
  have hg : (gdprOf c).filter (trueOf (responsesDict rs))
      = (gdprOf c).filter (trueOf (responsesDict rs')) :=
    List.filter_congr (fun q hq => htrue q ((List.mem_filter.mp hq).1))
  have hc2 : (cyberOf c).filter (trueOf (responsesDict rs))
      = (cyberOf c).filter (trueOf (responsesDict rs')) :=
    List.filter_congr (fun q hq => htrue q ((List.mem_filter.mp hq).1))
  have hf : c.filter (falseOf (responsesDict rs)) = c.filter (falseOf (responsesDict rs')) :=
    List.filter_congr hfalse
  rw [hg, hc2, hf]

/-- Agreement of the response dictionaries on every catalog question_id gives
the same computed scores, risk level and gap list. -/
theorem submit_fields_congr (c : List Question) (u : String) (rs rs' : List HCResponse)
    (h : ∀ q ∈ c, responsesDict rs q.id = responsesDict rs' q.id) :
    (submitHealthCheckOn c u rs).compliance_score = (submitHealthCheckOn c u rs').compliance_score
  ∧ (submitHealthCheckOn c u rs).gdpr_score = (submitHealthCheckOn c u rs').gdpr_score
  ∧ (submitHealthCheckOn c u rs).cyber_essentials_score
      = (submitHealthCheckOn c u rs').cyber_essentials_score
  ∧ (submitHealthCheckOn c u rs).risk_level = (submitHealthCheckOn c u rs').risk_level
  ∧ (submitHealthCheckOn c u rs).gaps = (submitHealthCheckOn c u rs').gaps
  ∧ (submitHealthCheckOn c u rs).total_gaps = (submitHealthCheckOn c u rs').total_gaps := by
  have hacc := scoreAcc_congr c rs rs' h
  unfold submitHealthCheckOn
  rw [hacc]
  exact ⟨rfl, rfl, rfl, rfl, rfl, rfl⟩

/-- The gaps field of the submission record is the stable sort of the raw
catalog-order gap list. -/
theorem submit_gaps_eq (c : List Question) (u : String) (rs : List HCResponse) :
    (submitHealthCheckOn c u rs).gaps = sortGaps (rawGaps c rs) := by
  rw [submitHealthCheckOn_spec]

/-- C1: for every catalog and list of submitted answers, an unanswered
catalog question contributes its weight to its category's maximum score but
not to the achieved score and never yields a gap; and an answer whose
question_id matches no catalog question is silently ignored: dropping all
such answers changes neither any score nor the gap list (the submission is a
total function of its inputs, so it always succeeds). -/
theorem scoring_ignores_unanswered_and_unknown (c : List Question) (u : String)
    (rs : List HCResponse) :
    ((scoreAcc c rs).gdpr_max = sumWeights (gdprOf c)
      ∧ (scoreAcc c rs).cyber_max = sumWeights (cyberOf c)
      ∧ (scoreAcc c rs).gdpr_score = achievedGdpr c rs
      ∧ (scoreAcc c rs).cyber_score = achievedCyber c rs)
  ∧ (∀ q ∈ c, responsesDict rs q.id = none →
        ∀ g ∈ (submitHealthCheckOn c u rs).gaps, g.question_id ≠ q.id)
  ∧ ((submitHealthCheckOn c u
        (rs.filter (fun r => c.any (fun q => q.id = r.question_id)))).compliance_score
        = (submitHealthCheckOn c u rs).compliance_score
      ∧ (submitHealthCheckOn c u
          (rs.filter (fun r => c.any (fun q => q.id = r.question_id)))).gdpr_score
          = (submitHealthCheckOn c u rs).gdpr_score
      ∧ (submitHealthCheckOn c u
          (rs.filter (fun r => c.any (fun q => q.id = r.question_id)))).cyber_essentials_score
          = (submitHealthCheckOn c u rs).cyber_essentials_score
      ∧ (submitHealthCheckOn c u
          (rs.filter (fun r => c.any (fun q => q.id = r.question_id)))).gaps
          = (submitHealthCheckOn c u rs).gaps) := by
  refine ⟨?_, ?_, ?_⟩
  · rw [scoreAcc_spec]
    exact ⟨rfl, rfl, rfl, rfl⟩
  · intro q hq hnone g hg
    rw [submit_gaps_eq] at hg
    rw [mem_sortGaps] at hg
    rcases List.mem_map.mp hg with ⟨q', hq', rfl⟩
    have hfalse : falseOf (responsesDict rs) q' = true := (List.mem_filter.mp hq').2
    intro hid
    have hid' : q'.id = q.id := hid
    unfold falseOf at hfalse
    rw [hid', hnone] at hfalse
    exact Bool.false_ne_true hfalse
  · have hdict : ∀ q ∈ c,
        responsesDict (rs.filter (fun r => c.any (fun q => q.id = r.question_id))) q.id
          = responsesDict rs q.id := by
      intro q hq
      exact responsesDict_filter_known c rs q.id ⟨q, hq, rfl⟩
    have h6 := submit_fields_congr c u _ rs hdict
    exact ⟨h6.1, h6.2.1, h6.2.2.1, h6.2.2.2.2.1⟩

/-- Witness for C1 at a one-question catalog with one unknown-id answer. -/
theorem scoring_ignores_unanswered_and_unknown_witness :
    ((scoreAcc [⟨"q1", "GDPR", "s", "t", 3, "g"⟩] [⟨"zzz", true, none⟩]).gdpr_max
        = sumWeights (gdprOf [⟨"q1", "GDPR", "s", "t", 3, "g"⟩]))
  ∧ (∀ g ∈ (submitHealthCheckOn [⟨"q1", "GDPR", "s", "t", 3, "g"⟩] "u"
        [⟨"zzz", true, none⟩]).gaps, g.question_id ≠ "q1")
  ∧ (submitHealthCheckOn [⟨"q1", "GDPR", "s", "t", 3, "g"⟩] "u"
        ([⟨"zzz", true, none⟩].filter
          (fun r => [Question.mk "q1" "GDPR" "s" "t" 3 "g"].any
            (fun q => q.id = r.question_id)))).compliance_score
      = (submitHealthCheckOn [⟨"q1", "GDPR", "s", "t", 3, "g"⟩] "u"
          [⟨"zzz", true, none⟩]).compliance_score := by
  refine ⟨(scoring_ignores_unanswered_and_unknown _ "u" _).1.1, ?_,
    (scoring_ignores_unanswered_and_unknown _ "u" _).2.2.1⟩
  exact (scoring_ignores_unanswered_and_unknown _ "u" _).2.1
    ⟨"q1", "GDPR", "s", "t", 3, "g"⟩ (by decide) (by decide)

/-- C2: the returned gap list contains exactly one entry per answered-false
catalog question (the raw gap list maps mkGap over the answered-false
questions in catalog iteration order), its priority comes from the weight
thresholds, and the returned order is all high gaps, then all medium, then
all low, each bucket preserving catalog iteration order; the shipped catalog
iterates all GDPR questions in declaration order, then all Cyber Essentials
questions in declaration order. -/
theorem gap_list_content_and_order (c : List Question) (u : String) (rs : List HCResponse) :
    ((submitHealthCheckOn c u rs).gaps
        = (rawGaps c rs).filter (fun g => g.priority = "high")
          ++ (rawGaps c rs).filter (fun g => g.priority = "medium")
          ++ (rawGaps c rs).filter (fun g => g.priority = "low"))
  ∧ rawGaps c rs = (c.filter (falseOf (responsesDict rs))).map mkGap
  ∧ (∀ q : Question, (mkGap q).priority
        = if q.weight ≥ 3 then "high" else if q.weight ≥ 2 then "medium" else "low")
  ∧ ALL_QUESTIONS = GDPR_QUESTIONS ++ CYBER_ESSENTIALS_QUESTIONS := by
  refine ⟨?_, rfl, fun q => rfl, rfl⟩
  have hlv : ∀ g ∈ rawGaps c rs,
      g.priority = "high" ∨ g.priority = "medium" ∨ g.priority = "low" := by
    intro g hg
    rcases List.mem_map.mp hg with ⟨q, _, rfl⟩
    exact gapPriority_cases q.weight
  obtain ⟨h0, h1, h2, h3⟩ := rankFilter_of_levels _ hlv
  rw [submit_gaps_eq, sortGaps_buckets, h0, h1, h2, h3, List.append_nil]

/-- C3: the risk level of an assessment is the threshold ladder applied to
the overall percentage alone, with the stated band boundaries. -/
theorem risk_level_thresholds (c : List Question) (u : String) (rs : List HCResponse) :
    ((submitHealthCheckOn c u rs).risk_level
        = riskLevel (submitHealthCheckOn c u rs).compliance_score)
  ∧ (∀ o : Nat, 80 ≤ o → riskLevel o = "low")
  ∧ (∀ o : Nat, 60 ≤ o → o < 80 → riskLevel o = "medium")
  ∧ (∀ o : Nat, 40 ≤ o → o < 60 → riskLevel o = "high")
  ∧ (∀ o : Nat, o < 40 → riskLevel o = "critical")
  ∧ riskLevel 80 = "low" ∧ riskLevel 79 = "medium" ∧ riskLevel 60 = "medium"
  ∧ riskLevel 59 = "high" ∧ riskLevel 40 = "high" ∧ riskLevel 39 = "critical" := by
  refine ⟨?_, ?_, ?_, ?_, ?_, by decide, by decide, by decide, by decide, by decide, by decide⟩
  · rw [submitHealthCheckOn_spec]
  · intro o h
    unfold riskLevel
    rw [if_pos h]
  · intro o h1 h2
    unfold riskLevel
    rw [if_neg (by omega), if_pos h1]
  · intro o h1 h2
    unfold riskLevel
    rw [if_neg (by omega), if_neg (by omega), if_pos h1]
  · intro o h
    unfold riskLevel
    rw [if_neg (by omega), if_neg (by omega), if_neg (by omega)]

/-- Witness for C3 inside each band. -/
theorem risk_level_thresholds_witness :
    riskLevel 95 = "low" ∧ riskLevel 65 = "medium" ∧ riskLevel 45 = "high"
  ∧ riskLevel 5 = "critical" :=
  ⟨(risk_level_thresholds [] "u" []).2.1 95 (by decide),
   (risk_level_thresholds [] "u" []).2.2.1 65 (by decide) (by decide),
   (risk_level_thresholds [] "u" []).2.2.2.1 45 (by decide) (by decide),
   (risk_level_thresholds [] "u" []).2.2.2.2.1 5 (by decide)⟩

/-- The three-question catalog of the worked example: gdpr_1 and gdpr_2
(weight 3 each, GDPR max 6) and ce_1 (weight 3, Cyber Essentials max 3). -/
def exampleCatalog : List Question :=
  GDPR_QUESTIONS.take 2 ++ CYBER_ESSENTIALS_QUESTIONS.take 1

/-- The worked example's answers: gdpr_1 true, gdpr_2 false, ce_1 true. -/
def exampleResponses : List HCResponse :=
  [⟨"gdpr_1", true, none⟩, ⟨"gdpr_2", false, none⟩, ⟨"ce_1", true, none⟩]

/-- Counterexample to C4: on the example catalog and answers the overall
percentage is round(6 achieved / 9 max * 100) = 67 and the risk level is
medium, not the claimed 44 and high. -/
theorem example_submission_counterexample :
    (submitHealthCheckOn exampleCatalog "u" exampleResponses).compliance_score = 67
  ∧ (submitHealthCheckOn exampleCatalog "u" exampleResponses).risk_level = "medium"
  ∧ ¬ (submitHealthCheckOn exampleCatalog "u" exampleResponses).compliance_score = 44
  ∧ ¬ (submitHealthCheckOn exampleCatalog "u" exampleResponses).risk_level = "high" := by
  decide

/-- C4 as amended: the example submission yields gdpr_score 50, cyber score
100, exactly one gap (gdpr_2, priority high), and overall percentage
round(6/9*100) = 67, hence risk level medium. -/
theorem example_submission_values :
    sumWeights (gdprOf exampleCatalog) = 6
  ∧ sumWeights (cyberOf exampleCatalog) = 3
  ∧ (submitHealthCheckOn exampleCatalog "u" exampleResponses).gdpr_score = 50
  ∧ (submitHealthCheckOn exampleCatalog "u" exampleResponses).cyber_essentials_score = 100
  ∧ (submitHealthCheckOn exampleCatalog "u" exampleResponses).gaps.map
      (fun g => (g.question_id, g.priority)) = [("gdpr_2", "high")]
  ∧ (submitHealthCheckOn exampleCatalog "u" exampleResponses).total_gaps = 1
  ∧ (submitHealthCheckOn exampleCatalog "u" exampleResponses).compliance_score = 67
  ∧ (submitHealthCheckOn exampleCatalog "u" exampleResponses).risk_level = "medium" := by
  decide

/-- C10: the response dictionary holds, for each question_id, the last
submitted answer bearing it; the computed scores, risk level and gap list
are a function of that dictionary alone (so earlier duplicates have no
effect); and the stored record keeps every submitted answer verbatim,
duplicates included. -/
theorem duplicate_answers_last_wins (c : List Question) (u : String)
    (rs rs' : List HCResponse) :
    (∀ qid : String,
        responsesDict rs qid = rs.reverse.find? (fun r => r.question_id = qid))
  ∧ ((∀ q ∈ c, responsesDict rs q.id = responsesDict rs' q.id) →
        ((submitHealthCheckOn c u rs).compliance_score
            = (submitHealthCheckOn c u rs').compliance_score
        ∧ (submitHealthCheckOn c u rs).gdpr_score = (submitHealthCheckOn c u rs').gdpr_score
        ∧ (submitHealthCheckOn c u rs).cyber_essentials_score
            = (submitHealthCheckOn c u rs').cyber_essentials_score
        ∧ (submitHealthCheckOn c u rs).risk_level = (submitHealthCheckOn c u rs').risk_level
        ∧ (submitHealthCheckOn c u rs).gaps = (submitHealthCheckOn c u rs').gaps))
  ∧ (submitHealthCheckOn c u rs).responses = rs := by
  refine ⟨fun qid => responsesDict_eq_last rs qid, ?_, rfl⟩
  intro h
  have h6 := submit_fields_congr c u rs rs' h
  exact ⟨h6.1, h6.2.1, h6.2.2.1, h6.2.2.2.1, h6.2.2.2.2.1⟩

/-- Witness for C10: a duplicate answer list and its last-only reduction give
the same gap list on the example catalog. -/
theorem duplicate_answers_last_wins_witness :
    (submitHealthCheckOn exampleCatalog "u"
        [⟨"gdpr_1", false, none⟩, ⟨"gdpr_1", true, none⟩]).gaps
      = (submitHealthCheckOn exampleCatalog "u" [⟨"gdpr_1", true, none⟩]).gaps :=
  ((duplicate_answers_last_wins exampleCatalog "u"
      [⟨"gdpr_1", false, none⟩, ⟨"gdpr_1", true, none⟩]
      [⟨"gdpr_1", true, none⟩]).2.1 (by decide)).2.2.2.2

/-! Lemmas about the risk register operations. -/

/-- The collection state left by generate_risk_register: the user's old
registers deleted, the new register appended. -/
theorem generate_state_eq (reg_id : String) (f : Nat → String) (u bt : String)
    (ind : Option String) (regs : List RiskRegister) :
    (generate_risk_register reg_id f u bt ind regs).2
      = (regs.filter (fun r => ¬ r.user_id = u))
        ++ [(generate_risk_register reg_id f u bt ind regs).1] := rfl

/-- The register built by generate carries the requesting user's id. -/
theorem generate_reg_user (reg_id : String) (f : Nat → String) (u bt : String)
    (ind : Option String) (regs : List RiskRegister) :
    (generate_risk_register reg_id f u bt ind regs).1.user_id = u := rfl

/-- Instantiation produces one risk per template entry. -/
theorem instantiateRisks_length (f : Nat → String) (ts : List TemplateRisk) :
    (instantiateRisks f ts).length = ts.length := by
  unfold instantiateRisks
  rw [List.length_map, List.enum_length]

/-- The i-th instantiated risk is the i-th template entry instantiated with
the i-th fresh id. -/
theorem instantiateRisks_get (f : Nat → String) (ts : List TemplateRisk) (i : Nat)
    (hi : i < (instantiateRisks f ts).length) (hg : i < ts.length) :
    (instantiateRisks f ts).get ⟨i, hi⟩ = instantiateRisk (f i) (ts.get ⟨i, hg⟩) := by
  unfold instantiateRisks
  simp [List.getElem_enum]

/-- After generate, the user has exactly one register in the collection. -/
theorem generate_countP_one (reg_id : String) (f : Nat → String) (u bt : String)
    (ind : Option String) (regs : List RiskRegister) :
    ((generate_risk_register reg_id f u bt ind regs).2).countP
      (fun r => r.user_id = u) = 1 := by
  rw [generate_state_eq, List.countP_append]
  have h1 : (regs.filter (fun r => ¬ r.user_id = u)).countP (fun r => r.user_id = u) = 0 := by
    rw [List.countP_eq_zero]
    intro a ha
    have h2 := (List.mem_filter.mp ha).2
    simpa using h2
  rw [h1]
  simp [List.countP_cons, generate_reg_user]

/-- C5: a subject has at most one risk register: after generate the subject
has exactly one register, and a second generate for the same subject
replaces the first: it again leaves exactly one register, whose risk count
is the second template's entry count (not the sum of both). -/
theorem single_register_per_subject (reg1 reg2 : String) (f1 f2 : Nat → String)
    (u bt1 bt2 : String) (i1 i2 : Option String) (regs : List RiskRegister) :
    ((generate_risk_register reg1 f1 u bt1 i1 regs).2.countP
        (fun r => r.user_id = u) = 1)
  ∧ ((generate_risk_register reg2 f2 u bt2 i2
        (generate_risk_register reg1 f1 u bt1 i1 regs).2).2.countP
        (fun r => r.user_id = u) = 1)
  ∧ (∀ r ∈ (generate_risk_register reg2 f2 u bt2 i2
        (generate_risk_register reg1 f1 u bt1 i1 regs).2).2,
        r.user_id = u →
        r.risks.length
          = ((templatesGet (normalizeBusinessType bt2)).getD generalTemplate).length) := by
  refine ⟨generate_countP_one reg1 f1 u bt1 i1 regs,
    generate_countP_one reg2 f2 u bt2 i2 _, ?_⟩
  intro r hr hu
  rw [generate_state_eq] at hr
  rcases List.mem_append.mp hr with h1 | h2
  · have h3 := (List.mem_filter.mp h1).2
    simp [hu] at h3
  · have h4 : r = (generate_risk_register reg2 f2 u bt2 i2
        (generate_risk_register reg1 f1 u bt1 i1 regs).2).1 := by
      simpa using h2
    rw [h4]
    exact instantiateRisks_length f2 _

/-- Witness for C5: two successive generate calls for one user, the second
with a different business type, leave one register with the second
template's risk count. -/
theorem single_register_per_subject_witness :
    ((generate_risk_register "r2" (fun _ => "b") "u1" "technology" none
        (generate_risk_register "r1" (fun _ => "a") "u1" "retail" none []).2).2.countP
        (fun r => r.user_id = "u1") = 1)
  ∧ ((generate_risk_register "r2" (fun _ => "b") "u1" "technology" none
        (generate_risk_register "r1" (fun _ => "a") "u1" "retail" none []).2).1.risks.length
      = ((templatesGet (normalizeBusinessType "technology")).getD generalTemplate).length) := by
  refine ⟨(single_register_per_subject "r1" "r2" (fun _ => "a") (fun _ => "b")
    "u1" "retail" "technology" none none []).2.1, ?_⟩
  exact (single_register_per_subject "r1" "r2" (fun _ => "a") (fun _ => "b")
    "u1" "retail" "technology" none none []).2.2 _ (by decide) (by decide)

/-- C6: generate normalizes business_type by lowercasing and replacing
spaces with underscores; when the normalized form is not a template key, the
lookup falls back to the general template (generate is a total function, so
it never raises): the produced risks equal those produced for
business_type general with the same fresh-id supply, and each one copies the
corresponding general entry's descriptive fields with a fresh risk_id,
status identified and null owner, due_date and notes. -/
theorem unknown_business_type_general (reg_id : String) (f : Nat → String)
    (u bt : String) (ind : Option String) (regs : List RiskRegister)
    (h : templatesGet (normalizeBusinessType bt) = none) :
    ((generate_risk_register reg_id f u bt ind regs).1.risks
        = (generate_risk_register reg_id f u "general" ind regs).1.risks)
  ∧ ((generate_risk_register reg_id f u bt ind regs).1.risks
      = instantiateRisks f generalTemplate)
  ∧ ((generate_risk_register reg_id f u bt ind regs).1.risks.length
      = generalTemplate.length)
  ∧ (∀ i (hi : i < (generate_risk_register reg_id f u bt ind regs).1.risks.length)
        (hg : i < generalTemplate.length),
        ((generate_risk_register reg_id f u bt ind regs).1.risks.get ⟨i, hi⟩).title
            = (generalTemplate.get ⟨i, hg⟩).title
      ∧ ((generate_risk_register reg_id f u bt ind regs).1.risks.get ⟨i, hi⟩).description
            = (generalTemplate.get ⟨i, hg⟩).description
      ∧ ((generate_risk_register reg_id f u bt ind regs).1.risks.get ⟨i, hi⟩).likelihood
            = (generalTemplate.get ⟨i, hg⟩).likelihood
      ∧ ((generate_risk_register reg_id f u bt ind regs).1.risks.get ⟨i, hi⟩).impact
            = (generalTemplate.get ⟨i, hg⟩).impact
      ∧ ((generate_risk_register reg_id f u bt ind regs).1.risks.get ⟨i, hi⟩).category
            = (generalTemplate.get ⟨i, hg⟩).category
      ∧ ((generate_risk_register reg_id f u bt ind regs).1.risks.get ⟨i, hi⟩).mitigation
            = (generalTemplate.get ⟨i, hg⟩).mitigation
      ∧ ((generate_risk_register reg_id f u bt ind regs).1.risks.get ⟨i, hi⟩).risk_id = f i
      ∧ ((generate_risk_register reg_id f u bt ind regs).1.risks.get ⟨i, hi⟩).status
            = "identified"
      ∧ ((generate_risk_register reg_id f u bt ind regs).1.risks.get ⟨i, hi⟩).owner = none
      ∧ ((generate_risk_register reg_id f u bt ind regs).1.risks.get ⟨i, hi⟩).due_date = none
      ∧ ((generate_risk_register reg_id f u bt ind regs).1.risks.get ⟨i, hi⟩).notes = none) := by
  have hrisks : (generate_risk_register reg_id f u bt ind regs).1.risks
      = instantiateRisks f generalTemplate := by
    show instantiateRisks f ((templatesGet (normalizeBusinessType bt)).getD generalTemplate)
      = instantiateRisks f generalTemplate
    rw [h]
    rfl
  have hgen : (generate_risk_register reg_id f u "general" ind regs).1.risks
      = instantiateRisks f generalTemplate := rfl
  refine ⟨hrisks.trans hgen.symm, hrisks, ?_, ?_⟩
  · rw [hrisks]
    exact instantiateRisks_length f generalTemplate
  · intro i hi hg
    have hget : (generate_risk_register reg_id f u bt ind regs).1.risks.get ⟨i, hi⟩
        = instantiateRisk (f i) (generalTemplate.get ⟨i, hg⟩) := by
      have hi2 : i < (instantiateRisks f generalTemplate).length := by
        rw [← hrisks]
        exact hi
      calc (generate_risk_register reg_id f u bt ind regs).1.risks.get ⟨i, hi⟩
          = (instantiateRisks f generalTemplate).get ⟨i, hi2⟩ := by
            simp only [List.get_eq_getElem]
            exact List.getElem_of_eq hrisks hi
        _ = instantiateRisk (f i) (generalTemplate.get ⟨i, hg⟩) :=
            instantiateRisks_get f generalTemplate i hi2 hg
    rw [hget]
    exact ⟨rfl, rfl, rfl, rfl, rfl, rfl, rfl, rfl, rfl, rfl, rfl⟩

/-- Witness for C6: the business type Unknown Business normalizes to
unknown_business, which is no template key, and generates the general risks. -/
theorem unknown_business_type_general_witness :
    (templatesGet (normalizeBusinessType "Unknown Business") = none)
  ∧ ((generate_risk_register "r" (fun _ => "x") "u" "Unknown Business" none []).1.risks
      = (generate_risk_register "r" (fun _ => "x") "u" "general" none []).1.risks) :=
  ⟨by decide,
   (unknown_business_type_general "r" (fun _ => "x") "u" "Unknown Business" none []
     (by decide)).1⟩

/-- When no risk in the list bears the id, the update loop returns the list
unchanged with the updated flag false. -/
theorem updateRiskInList_not_found (rid status : String) (notes : Option String) :
    ∀ rs : List Risk, (∀ x ∈ rs, ¬ x.risk_id = rid) →
      updateRiskInList rid status notes rs = (rs, false) := by
  intro rs
  induction rs with
  | nil => intro _; rfl
  | cons a t ih =>
      intro h
      have ha : ¬ a.risk_id = rid := h a (List.mem_cons_self a t)
      simp only [updateRiskInList, ha, if_neg, ite_false]
      rw [ih (fun x hx => h x (List.mem_cons_of_mem a hx))]

/-- The update loop rewrites exactly the first matching risk: its status is
set and its notes are overwritten only when the new notes value is truthy. -/
theorem updateRiskInList_found (rid status : String) (notes : Option String) :
    ∀ (pre : List Risk) (r : Risk) (post : List Risk),
      (∀ x ∈ pre, ¬ x.risk_id = rid) → r.risk_id = rid →
      updateRiskInList rid status notes (pre ++ r :: post)
        = (pre ++ { r with status := status,
                           notes := if pyTruthy notes then notes else r.notes } :: post,
           true) := by
  intro pre
  induction pre with
  | nil =>
      intro r post _ hr
      simp only [List.nil_append, updateRiskInList, hr, if_pos, ite_true]
  | cons a t ih =>
      intro r post hpre hr
      have ha : ¬ a.risk_id = rid := hpre a (List.mem_cons_self a t)
      simp only [List.cons_append, updateRiskInList, ha, if_neg, ite_false]
      have hrec := ih r post (fun x hx => hpre x (List.mem_cons_of_mem a hx)) hr
      simp only [List.append_eq] at hrec ⊢
      rw [hrec]

/-- C7: update_risk fails with 404 when the subject has no register and when
no risk bears the given risk_id, leaving the stored collection unchanged in
both cases; on success it rewrites exactly the first matching risk, setting
its status and overwriting its notes only when a truthy (non-empty) notes
value was provided: an omitted (None) or empty notes value leaves the
existing notes untouched. -/
theorem update_risk_spec (u rid status : String) (notes : Option String)
    (regs : List RiskRegister) :
    (regs.find? (fun r => r.user_id = u) = none →
        update_risk u rid status notes regs
          = ⟨some (404, "Risk register not found"), regs⟩)
  ∧ (∀ reg, regs.find? (fun r => r.user_id = u) = some reg →
        (∀ x ∈ reg.risks, ¬ x.risk_id = rid) →
        update_risk u rid status notes regs = ⟨some (404, "Risk not found"), regs⟩)
  ∧ (∀ reg, regs.find? (fun r => r.user_id = u) = some reg →
        ∀ pre r post, reg.risks = pre ++ r :: post →
          (∀ x ∈ pre, ¬ x.risk_id = rid) → r.risk_id = rid →
          update_risk u rid status notes regs
            = ⟨none, setRisksFor u (pre ++ { r with status := status,
                                                    notes := if pyTruthy notes then notes
                                                             else r.notes } :: post) regs⟩)
  ∧ (pyTruthy none = false ∧ pyTruthy (some "") = false
      ∧ ∀ s : String, ¬ s = "" → pyTruthy (some s) = true) := by
  refine ⟨?_, ?_, ?_, rfl, rfl, ?_⟩
  · intro hnone
    unfold update_risk
    rw [hnone]
  · intro reg hfind hno
    unfold update_risk
    rw [hfind]
    simp only [updateRiskInList_not_found rid status notes reg.risks hno]
    rfl
  · intro reg hfind pre r post hsplit hpre hr
    unfold update_risk
    rw [hfind]
    dsimp only
    rw [hsplit, updateRiskInList_found rid status notes pre r post hpre hr]
    rfl
  · intro s hs
    unfold pyTruthy
    simp only [Bool.not_eq_true']
    exact Bool.eq_false_iff.mpr (fun hc => hs ((String.isEmpty_iff s).mp hc))

/-- Witness for C7: the 404 case on an empty collection and a successful
status update that preserves the existing notes when notes are omitted. -/
theorem update_risk_spec_witness :
    (update_risk "u1" "x" "resolved" none [] = ⟨some (404, "Risk register not found"), []⟩)
  ∧ (update_risk "u1" "rid1" "mitigating" none
        [⟨"id1", "u1", "general", none,
          [⟨"rid1", "T", "D", "l", "h", "C", "M", "identified", none, none, some "old"⟩], 1⟩]
      = ⟨none, setRisksFor "u1"
          ([] ++ ⟨"rid1", "T", "D", "l", "h", "C", "M", "mitigating", none, none,
              if pyTruthy none then none else some "old"⟩ :: [])
          [⟨"id1", "u1", "general", none,
            [⟨"rid1", "T", "D", "l", "h", "C", "M", "identified", none, none, some "old"⟩], 1⟩]⟩)
  ∧ pyTruthy (some "abc") = true := by
  refine ⟨(update_risk_spec "u1" "x" "resolved" none []).1 rfl, ?_,
    (update_risk_spec "u1" "x" "resolved" none []).2.2.2.2.2 "abc" (by decide)⟩
  exact (update_risk_spec "u1" "rid1" "mitigating" none _).2.2.1
    ⟨"id1", "u1", "general", none,
      [⟨"rid1", "T", "D", "l", "h", "C", "M", "identified", none, none, some "old"⟩], 1⟩
    (by decide) []
    ⟨"rid1", "T", "D", "l", "h", "C", "M", "identified", none, none, some "old"⟩ []
    rfl (by decide) rfl

/-- A register in the collection after setRisksFor either was already there
or carries exactly the new risks list. -/
theorem mem_setRisksFor (u : String) (risks : List Risk) :
    ∀ (regs : List RiskRegister) (reg : RiskRegister),
      reg ∈ setRisksFor u risks regs → reg ∈ regs ∨ reg.risks = risks := by
  intro regs
  induction regs with
  | nil => intro reg h; exact absurd h (List.not_mem_nil reg)
  | cons a t ih =>
      intro reg h
      by_cases ha : a.user_id = u
      · simp only [setRisksFor, ha, if_pos, ite_true] at h
        rcases List.mem_cons.mp h with h1 | h2
        · exact .inr (by rw [h1])
        · exact .inl (List.mem_cons_of_mem a h2)
      · simp only [setRisksFor, ha, ite_false] at h
        rcases List.mem_cons.mp h with h1 | h2
        · exact .inl (by rw [h1]; exact List.mem_cons_self a t)
        · rcases ih reg h2 with h3 | h4
          · exact .inl (List.mem_cons_of_mem a h3)
          · exact .inr h4

/-- A risk in the list left by the update loop either was already in the
list or has exactly the supplied status. -/
theorem mem_updateRiskInList (rid status : String) (notes : Option String) :
    ∀ (rs : List Risk) (r : Risk),
      r ∈ (updateRiskInList rid status notes rs).1 → r ∈ rs ∨ r.status = status := by
  intro rs
  induction rs with
  | nil => intro r h; exact absurd h (List.not_mem_nil r)
  | cons a t ih =>
      intro r h
      by_cases ha : a.risk_id = rid
      · simp only [updateRiskInList, ha, if_pos, ite_true] at h
        rcases List.mem_cons.mp h with h1 | h2
        · exact .inr (by rw [h1])
        · exact .inl (List.mem_cons_of_mem a h2)
      · simp only [updateRiskInList, ha, ite_false] at h
        rcases List.mem_cons.mp h with h1 | h2
        · exact .inl (by rw [h1]; exact List.mem_cons_self a t)
        · rcases ih r h2 with h3 | h4
          · exact .inl (List.mem_cons_of_mem a h3)
          · exact .inr h4

/-- Counterexample to C8: update_risk performs no validation of its status
input, so the out-of-enum status bogus is accepted (no error) and stored on
a risk of the register. -/
theorem invalid_status_stored_counterexample :
    ((update_risk "u1" "risk_x" "bogus" none
        (generate_risk_register "reg1" (fun _ => "risk_x") "u1" "general" none []).2).error
      = none)
  ∧ ((update_risk "u1" "risk_x" "bogus" none
        (generate_risk_register "reg1" (fun _ => "risk_x") "u1" "general" none []).2).registers.any
        (fun reg => reg.risks.any (fun r => !statusEnum r.status)) = true) := by
  decide

/-- C8 as amended: generate initializes every risk's status to identified
(an enum value), and update_risk stores exactly the status string it is
given, so every stored status stays in the four-value enum whenever the
status input is one of the four enum values; update_risk itself does not
reject out-of-enum status strings. -/
theorem status_enum_preserved (reg_id : String) (f : Nat → String) (u bt : String)
    (ind : Option String) (regs : List RiskRegister) (u2 rid status : String)
    (notes : Option String) :
    (∀ r ∈ (generate_risk_register reg_id f u bt ind regs).1.risks,
        r.status = "identified")
  ∧ (statusEnum status = true →
      (∀ reg ∈ regs, ∀ r ∈ reg.risks, statusEnum r.status = true) →
      ∀ reg ∈ (update_risk u2 rid status notes regs).registers,
        ∀ r ∈ reg.risks, statusEnum r.status = true) := by
  constructor
  · intro r hr
    have hmem : r ∈ instantiateRisks f
        ((templatesGet (normalizeBusinessType bt)).getD generalTemplate) := hr
    unfold instantiateRisks at hmem
    rcases List.mem_map.mp hmem with ⟨p, _, rfl⟩
    rfl
  · intro hst hregs reg hreg r hr
    unfold update_risk at hreg
    cases hfind : regs.find? (fun r => r.user_id = u2) with
    | none =>
        rw [hfind] at hreg
        exact hregs reg hreg r hr
    | some reg0 =>
        rw [hfind] at hreg
        dsimp only at hreg
        cases hp : (updateRiskInList rid status notes reg0.risks).2 with
        | false =>
            rw [hp] at hreg
            simp only [Bool.false_eq_true, if_false] at hreg
            exact hregs reg hreg r hr
        | true =>
            rw [hp] at hreg
            simp only [if_true] at hreg
            rcases mem_setRisksFor u2 _ regs reg hreg with h1 | h2
            · exact hregs reg h1 r hr
            · rw [h2] at hr
              rcases mem_updateRiskInList rid status notes reg0.risks r hr with h3 | h4
              · exact hregs reg0 (List.mem_of_find?_eq_some hfind) r h3
              · rw [h4]
                exact hst

/-- Witness for C8 as amended: a generate followed by a mitigating update
keeps every stored status in the enum. -/
theorem status_enum_preserved_witness :
    (∀ r ∈ (generate_risk_register "r1" (fun _ => "x") "u1" "retail" none []).1.risks,
        r.status = "identified")
  ∧ (∀ reg ∈ (update_risk "u1" "x" "mitigating" none
        (generate_risk_register "r1" (fun _ => "x") "u1" "retail" none []).2).registers,
        ∀ r ∈ reg.risks, statusEnum r.status = true) := by
  refine ⟨(status_enum_preserved "r1" (fun _ => "x") "u1" "retail" none []
    "u1" "x" "mitigating" none).1, ?_⟩
  exact (status_enum_preserved "r1" (fun _ => "x") "u1" "retail" none
    ((generate_risk_register "r1" (fun _ => "x") "u1" "retail" none []).2)
    "u1" "x" "mitigating" none).2 (by decide) (by decide)

/-- The document rewrite applied on the failure path of analyze_document. -/
def failUpd (msg : String) (d : Document) : Document :=
  { d with analysis_status := "failed", analysis_error := some msg }

/-- The document rewrite applied on the success path of analyze_document. -/
def succUpd (data : String) (d : Document) : Document :=
  { d with analysis_status := "completed", analysis_result := some data }

/-- Updating the first document bearing an id (with an id-preserving update)
rewrites exactly the document that find?-by-id returns. -/
theorem setDocFields_find_id (i : String) (f : Document → Document)
    (hid : ∀ d, (f d).id = d.id) :
    ∀ (l : List Document) (d0 : Document),
      l.find? (fun d => d.id = i) = some d0 →
      (setDocFields i f l).find? (fun d => d.id = i) = some (f d0) := by
  intro l
  induction l with
  | nil => intro d0 h; exact absurd h (by simp)
  | cons d rest ih =>
      intro d0 h
      by_cases hd : d.id = i
      · have hd0 : d = d0 := by
          simpa [List.find?_cons, hd] using h
        subst hd0
        simp [setDocFields, hd, List.find?_cons, hid d]
      · have h2 : rest.find? (fun d => d.id = i) = some d0 := by
          simpa [List.find?_cons, hd] using h
        simp [setDocFields, hd, List.find?_cons, ih d0 h2]

/-- Updating the first document bearing a different id (with an
id-preserving update) does not change find?-by-id. -/
theorem setDocFields_find_ne (i j : String) (f : Document → Document)
    (hid : ∀ d, (f d).id = d.id) (hij : ¬ j = i) :
    ∀ l : List Document,
      (setDocFields j f l).find? (fun d => d.id = i) = l.find? (fun d => d.id = i) := by
  have hji : ¬ i = j := fun hc => hij hc.symm
  intro l
  induction l with
  | nil => rfl
  | cons d rest ih =>
      by_cases hd : d.id = j
      · have hdi : ¬ d.id = i := by
          rw [hd]
          exact hij
        simp [setDocFields, hd, List.find?_cons, hid d, hdi, hij]
      · by_cases hdi : d.id = i
        · simp [setDocFields, hd, List.find?_cons, hdi, hji]
        · simp [setDocFields, hd, List.find?_cons, hdi, ih]

/-- C9: when the analyzer call fails (transport error or invalid JSON),
analyze_document persists analysis_status failed and the error message on
the document and surfaces a 500 to the caller; the failed state survives
analyze calls on other documents, and a subsequent successful analyze of
the same document overwrites it with analysis_status completed and the
parsed result. -/
theorem analysis_failure_and_retry (doc_id u msg data : String)
    (docs : List Document) (d0 : Document)
    (h1 : docs.find? (fun d => d.id = doc_id) = some d0)
    (h2 : d0.user_id = u) :
    ((analyze_document doc_id u (.failure msg) docs).error
        = some (500, "Analysis failed: " ++ msg))
  ∧ ((analyze_document doc_id u (.failure msg) docs).documents.find?
        (fun d => d.id = doc_id)
      = some (failUpd msg d0))
  ∧ ((analyze_document doc_id u (.success data)
        (analyze_document doc_id u (.failure msg) docs).documents).error = none)
  ∧ ((analyze_document doc_id u (.success data)
        (analyze_document doc_id u (.failure msg) docs).documents).documents.find?
        (fun d => d.id = doc_id)
      = some (succUpd data (failUpd msg d0)))
  ∧ (∀ (id2 u2 : String) (out2 : AnalyzerOutcome), ¬ id2 = doc_id →
      ((analyze_document id2 u2 out2
          (analyze_document doc_id u (.failure msg) docs).documents).documents.find?
          (fun d => d.id = doc_id))
        = some (failUpd msg d0)) := by
  have hd0id : d0.id = doc_id := by simpa using List.find?_some h1
  have hd0mem : d0 ∈ docs := List.mem_of_find?_eq_some h1
  have hs0 : (docs.find? (fun d => d.id = doc_id && d.user_id = u)).isSome :=
    List.find?_isSome.mpr ⟨d0, hd0mem, by simp [hd0id, h2]⟩
  obtain ⟨dm, hdm⟩ := Option.isSome_iff_exists.mp hs0
  have hAF : analyze_document doc_id u (.failure msg) docs
      = ⟨some (500, "Analysis failed: " ++ msg),
         setDocFields doc_id (failUpd msg) docs⟩ := by
    unfold analyze_document
    rw [hdm]
    rfl
  have hfid : ∀ d : Document, (failUpd msg d).id = d.id := fun _ => rfl
  have hsid : ∀ d : Document, (succUpd data d).id = d.id := fun _ => rfl
  have hfindAF : (analyze_document doc_id u (.failure msg) docs).documents.find?
      (fun d => d.id = doc_id) = some (failUpd msg d0) := by
    rw [hAF]
    exact setDocFields_find_id doc_id (failUpd msg) hfid docs d0 h1
  have hmem1 : failUpd msg d0 ∈ (analyze_document doc_id u (.failure msg) docs).documents :=
    List.mem_of_find?_eq_some hfindAF
  have hs1 : ((analyze_document doc_id u (.failure msg) docs).documents.find?
      (fun d => d.id = doc_id && d.user_id = u)).isSome := by
    refine List.find?_isSome.mpr ⟨failUpd msg d0, hmem1, ?_⟩
    have hu1 : (failUpd msg d0).user_id = u := h2
    have hi1 : (failUpd msg d0).id = doc_id := hd0id
    simp [hu1, hi1]
  obtain ⟨dm1, hdm1⟩ := Option.isSome_iff_exists.mp hs1
  have hRTgen : ∀ D1 : List Document,
      D1.find? (fun d => d.id = doc_id && d.user_id = u) = some dm1 →
      analyze_document doc_id u (.success data) D1
        = ⟨none, setDocFields doc_id (succUpd data) D1⟩ := by
    intro D1 hD1
    unfold analyze_document
    rw [hD1]
    rfl
  have hRT := hRTgen (analyze_document doc_id u (.failure msg) docs).documents hdm1
  have hOther : ∀ (D1 : List Document) (id2 u2 : String) (out2 : AnalyzerOutcome),
      ¬ id2 = doc_id →
      D1.find? (fun d => d.id = doc_id) = some (failUpd msg d0) →
      (analyze_document id2 u2 out2 D1).documents.find? (fun d => d.id = doc_id)
        = some (failUpd msg d0) := by
    intro D1 id2 u2 out2 hne hD1
    unfold analyze_document
    cases hf2 : D1.find? (fun d => d.id = id2 && d.user_id = u2) with
    | none =>
        dsimp only
        exact hD1
    | some dx =>
        dsimp only
        cases out2 with
        | success dta =>
            dsimp only
            rw [setDocFields_find_ne doc_id id2
              (fun d => { d with analysis_status := "completed",
                                 analysis_result := some dta }) (fun _ => rfl) hne]
            exact hD1
        | failure m2 =>
            dsimp only
            rw [setDocFields_find_ne doc_id id2
              (fun d => { d with analysis_status := "failed",
                                 analysis_error := some m2 }) (fun _ => rfl) hne]
            exact hD1
  refine ⟨by rw [hAF], hfindAF, by rw [hRT], ?_, ?_⟩
  · rw [hRT]
    exact setDocFields_find_id doc_id (succUpd data) hsid _ (failUpd msg d0) hfindAF
  · intro id2 u2 out2 hne
    exact hOther _ id2 u2 out2 hne hfindAF

/-- Witness for C9: a failing analysis on a single pending document, then a
successful retry. -/
theorem analysis_failure_and_retry_witness :
    ((analyze_document "d1" "u1" (.failure "boom")
        [⟨"d1", "u1", "policy.pdf", "application/pdf", "pending", none, none⟩]).error
      = some (500, "Analysis failed: " ++ "boom"))
  ∧ ((analyze_document "d1" "u1" (.failure "boom")
        [⟨"d1", "u1", "policy.pdf", "application/pdf", "pending", none, none⟩]).documents.find?
        (fun d => d.id = "d1")
      = some (failUpd "boom"
          ⟨"d1", "u1", "policy.pdf", "application/pdf", "pending", none, none⟩))
  ∧ ((analyze_document "d1" "u1" (.success "parsed")
        (analyze_document "d1" "u1" (.failure "boom")
          [⟨"d1", "u1", "policy.pdf", "application/pdf", "pending",
            none, none⟩]).documents).documents.find?
        (fun d => d.id = "d1")
      = some (succUpd "parsed" (failUpd "boom"
          ⟨"d1", "u1", "policy.pdf", "application/pdf", "pending", none, none⟩))) :=
  ⟨(analysis_failure_and_retry "d1" "u1" "boom" "parsed"
      [⟨"d1", "u1", "policy.pdf", "application/pdf", "pending", none, none⟩]
      ⟨"d1", "u1", "policy.pdf", "application/pdf", "pending", none, none⟩
      (by decide) rfl).1,
   (analysis_failure_and_retry "d1" "u1" "boom" "parsed"
      [⟨"d1", "u1", "policy.pdf", "application/pdf", "pending", none, none⟩]
      ⟨"d1", "u1", "policy.pdf", "application/pdf", "pending", none, none⟩
      (by decide) rfl).2.1,
   (analysis_failure_and_retry "d1" "u1" "boom" "parsed"
      [⟨"d1", "u1", "policy.pdf", "application/pdf", "pending", none, none⟩]
      ⟨"d1", "u1", "policy.pdf", "application/pdf", "pending", none, none⟩
      (by decide) rfl).2.2.2.1⟩
